import Mathlib

/-!
Verification of `src/lazyComponents.tsx`: lazily-loaded UI component
bindings, a suspense/error-boundary higher-order wrapper, a default
loading fallback, a preload utility, and the `LazyComponents` mapping.

The element trees built by the module are embedded as inductive values
(`VNode` for plain rendered markup, `RNode` for trees that still carry
component applications, suspense wrappers and error boundaries), and
the host framework's rendering of suspense and error boundaries is an
explicit evaluator `evalRNode`.
-/

/-- Plain rendered markup: an element with tag, className and children,
a text node, or a button carrying a className and children (its onClick
handler is modelled separately as a state transition). -/
inductive VNode where
  | el : String → String → List VNode → VNode
  | text : String → VNode
  | button : String → List VNode → VNode

/-- The possible results of rendering a component: a finished tree,
a suspension (a deferred import that has not resolved yet), or a
thrown rendering error. -/
inductive Outcome where
  | done : VNode → Outcome
  | pending : Outcome
  | error : Outcome

/-- JavaScript `String.prototype.split` on a single-character separator,
on an explicit character list: splits at every occurrence of the
separator, keeping empty pieces. -/
def jsSplitChars (sep : Char) : List Char → List Char → List String
  | [], acc => [String.mk acc.reverse]
  | c :: cs, acc =>
    if c = sep then String.mk acc.reverse :: jsSplitChars sep cs []
    else jsSplitChars sep cs (c :: acc)

/-- JavaScript `s.split(sep)` for a single-character separator. -/
def jsSplit (sep : Char) (s : String) : List String :=
  jsSplitChars sep s.toList []

/-- JavaScript array indexing interpolated into a template string:
a missing index yields `undefined`, printed as the string "undefined". -/
def jsIndex (xs : List String) (i : Nat) : String :=
  (xs.get? i).getD "undefined"

/-- The `size` argument of `DefaultLoadingFallback`, a member of the
union type `'sm' | 'md' | 'lg'`. -/
inductive Size where
  | sm
  | md
  | lg
deriving DecidableEq

/-- The object key used to index `sizeClasses` with a `size` value. -/
def Size.key : Size → String
  | .sm => "sm"
  | .md => "md"
  | .lg => "lg"

/-- The `sizeClasses` object literal of `DefaultLoadingFallback`,
as an association list from keys to className strings. -/
def sizeClasses : List (String × String) :=
  [("sm", "h-5 w-5 min-h-[100px]"),
   ("md", "h-8 w-8 min-h-[200px]"),
   ("lg", "h-12 w-12 min-h-[300px]")]

/-- `DefaultLoadingFallback` from the source: looks up
`sizeClasses[size]` (with the destructuring default `size = 'md'` when
the argument is omitted, modelled as `none`) and builds the spinner
markup.  A failed object lookup would make the later `.split` call
throw, modelled as `none`. -/
def DefaultLoadingFallback (sizeArg : Option Size) : Option VNode :=
  let size := sizeArg.getD Size.md
  match sizeClasses.lookup size.key with
  | none => none
  | some cls =>
    some (VNode.el "div" ("flex items-center justify-center " ++ cls)
      [VNode.el "div"
        ("animate-spin rounded-full " ++ jsIndex (jsSplit ' ' cls) 0 ++ " "
          ++ jsIndex (jsSplit ' ' cls) 1 ++ " border-b-2 border-white") []])

example : DefaultLoadingFallback (some Size.md) =
    some (VNode.el "div" "flex items-center justify-center h-8 w-8 min-h-[200px]"
      [VNode.el "div" "animate-spin rounded-full h-8 w-8 border-b-2 border-white" []]) := by
  rfl

/-- Element trees produced by the module's wrapper, over a props type `P`:
a plain rendered node, a component (a render function together with the
props it is applied to), a `Suspense` element with its `fallback`
attribute (`none` models a fallback whose own rendering throws), or an
`ErrorBoundary` element around its children. -/
inductive RNode (P : Type) where
  | pure : VNode → RNode P
  | comp : (P → Outcome) → P → RNode P
  | suspense : Option VNode → RNode P → RNode P
  | boundary : RNode P → RNode P

/-- The `options` parameter of `withSuspense`.  Every field is optional
in the source; the destructuring defaults (`errorBoundary = false`,
`loadingSize = 'md'`) are applied inside `withSuspense`, and
`fallback || …` treats an absent fallback as falsy. -/
structure SuspenseOptions where
  fallback : Option VNode := none
  errorBoundary : Option Bool := none
  loadingSize : Option Size := none

/-- `withSuspense` from the source: destructures the options with their
defaults and returns `WrappedComponent`, which renders the component
inside a `Suspense` element (with `fallback || <DefaultLoadingFallback
size={loadingSize} />` as the fallback), wrapped in an `ErrorBoundary`
exactly when `errorBoundary` is true. -/
def withSuspense {P : Type} (Component : P → Outcome) (options : SuspenseOptions) :
    P → RNode P :=
  let fallback := options.fallback
  let errorBoundary := options.errorBoundary.getD false
  let loadingSize := options.loadingSize.getD Size.md
  fun props =>
    let loadingFallback : Option VNode :=
      match fallback with
      | some f => some f
      | none => DefaultLoadingFallback (some loadingSize)
    let suspenseWrapper := RNode.suspense loadingFallback (RNode.comp Component props)
    if errorBoundary then RNode.boundary suspenseWrapper
    else suspenseWrapper

/-- The `fallback || <DefaultLoadingFallback size={loadingSize} />`
value computed by `WrappedComponent`, as a function of the options. -/
def loadingFallbackOf (options : SuspenseOptions) : Option VNode :=
  match options.fallback with
  | some f => some f
  | none => DefaultLoadingFallback (some (options.loadingSize.getD Size.md))

/-- The state of the `ErrorBoundary` class component. -/
structure EBState where
  hasError : Bool
deriving DecidableEq

/-- The `ErrorBoundary` constructor's initial state. -/
def ErrorBoundary.initialState : EBState := { hasError := false }

/-- `ErrorBoundary.getDerivedStateFromError`: any rendering error in the
children derives the state `{ hasError: true }`. -/
def ErrorBoundary.getDerivedStateFromError : EBState := { hasError := true }

/-- The fallback markup `ErrorBoundary.render` returns when
`this.state.hasError` holds. -/
def errorFallbackVNode : VNode :=
  VNode.el "div" "flex items-center justify-center min-h-[200px] text-red-400"
    [VNode.el "div" "text-center"
      [VNode.el "div" "text-2xl mb-2" [VNode.text "⚠️"],
       VNode.el "p" "" [VNode.text "Something went wrong loading this component"],
       VNode.button "mt-2 px-3 py-1 bg-red-600 hover:bg-red-700 rounded text-white text-sm"
         [VNode.text "Retry"]]]

/-- `ErrorBoundary.render`: the fallback markup when `hasError` holds,
`this.props.children` otherwise. -/
def ErrorBoundary.render {P : Type} (state : EBState) (children : RNode P) : RNode P :=
  if state.hasError then RNode.pure errorFallbackVNode
  else children

/-- The Retry button's onClick handler,
`() => this.setState({ hasError: false })`. -/
def ErrorBoundary.retryOnClick (_state : EBState) : EBState := { hasError := false }

/-- The host framework's rendering of a tree, modelled from the spec's
glossary: a suspended child of `Suspense` shows the `fallback`
attribute instead (a throwing fallback itself throws); an error raised
while rendering the children of `ErrorBoundary` is intercepted, the
state derived by `getDerivedStateFromError` makes the re-render return
the boundary's fallback markup; errors and suspensions otherwise
propagate. -/
def evalRNode {P : Type} : RNode P → Outcome
  | .pure v => .done v
  | .comp C p => C p
  | .suspense fb child =>
    match evalRNode child with
    | .done v => .done v
    | .error => .error
    | .pending =>
      match fb with
      | some v => .done v
      | none => .error
  | .boundary child =>
    match evalRNode child with
    | .done v => .done v
    | .pending => .pending
    | .error => .done errorFallbackVNode

/-- The fallback attribute of the `Suspense` element inside a wrapper's
result (looking through an enclosing `ErrorBoundary`), when there is
one. -/
def suspenseFallbackOf {P : Type} : RNode P → Option (Option VNode)
  | .suspense fb _ => some fb
  | .boundary child => suspenseFallbackOf child
  | _ => none

/-- The child of the `Suspense` element inside a wrapper's result
(looking through an enclosing `ErrorBoundary`), when there is one. -/
def suspenseChildOf {P : Type} : RNode P → Option (RNode P)
  | .suspense _ child => some child
  | .boundary child => suspenseChildOf child
  | _ => none

/-- Whether a tree contains an `ErrorBoundary` element. -/
def containsErrorBoundary {P : Type} : RNode P → Bool
  | .boundary _ => true
  | .suspense _ child => containsErrorBoundary child
  | _ => false

/-- A lazily-loaded component binding: the thunk the framework will run
to fetch the component's module, recorded by the path of the module the
fetch requests. -/
structure LazyComp where
  load : Unit → String

/-- Modelled from the spec: the UI framework's lazy-loading primitive
(`React.lazy`, an external collaborator not in this repository) wraps a
deferred module import, storing the thunk without invoking it; the
thunk is invoked only when the component is first needed. -/
def lazy (thunk : Unit → String) : LazyComp := { load := thunk }

/-- A dynamic `import('path')` thunk: when invoked, requests the chunk
of the named module. -/
def dynamicImport (path : String) : Unit → String := fun _ => path

def LazyProfileDashboard : LazyComp :=
  lazy (dynamicImport "./components/dashboard/ProfileDashboard")

def LazyPersonalDetails : LazyComp :=
  lazy (dynamicImport "./components/dashboard/PersonalDetails")

def LazyTransaction : LazyComp :=
  lazy (dynamicImport "./components/dashboard/Transaction")

def LazyFilters : LazyComp :=
  lazy (dynamicImport "./components/marketplace/Filters")

def LazyCoinCard : LazyComp :=
  lazy (dynamicImport "./components/marketplace/CoinCard")

def LazyAssetTable : LazyComp :=
  lazy (dynamicImport "./components/marketplace/AssetTable")

def LazySummaryHeader : LazyComp :=
  lazy (dynamicImport "./components/marketplace/SummaryHeader")

def LazyTradeInterface : LazyComp :=
  lazy (dynamicImport "./components/marketplace/TradeInterface")

def LazySmallLoanCard : LazyComp :=
  lazy (dynamicImport "./components/card/SmallLoanCard")

def LazyBigLoanCard : LazyComp :=
  lazy (dynamicImport "./components/card/BigLoanCard")

def LazyLoanRequestForm : LazyComp :=
  lazy (dynamicImport "./components/card/LoanRequestForm")

def LazyLoanEligibilityMeter : LazyComp :=
  lazy (dynamicImport "./components/card/LoanEligibilityMeter")

def LazyWalletConnectionModal : LazyComp :=
  lazy (dynamicImport "./components/wallet/WalletConnectionModal")

def LazyFaucetModule : LazyComp :=
  lazy (dynamicImport "./components/landing/FaucetModule")

def LazyBuiltOnAptos : LazyComp :=
  lazy (dynamicImport "./components/landing/BuiltOnAptos")

/-- A handler passed to `.catch`; `console.error` only logs, so it is a
unit-valued function. -/
def consoleErrorHandler (_msg : String) : Unit := ()

/-- JavaScript `promise.catch(handler)`: a fulfilled promise passes its
value through; a rejected promise runs the handler and fulfils with
`undefined` (here `none`).  The resulting promise never rejects when
the handler does not throw. -/
def promiseCatch {α : Type} (p : Except String α) (handler : String → Unit) :
    Except String (Option α) :=
  match p with
  | .ok a => .ok (some a)
  | .error e =>
    let _ := handler e
    .ok none

/-- `preloadComponent` from the source: invokes the import thunk and
attaches `console.error` as a rejection handler; its own result is
`void`. -/
def preloadComponent (importFn : Unit → Except String String) : Except String Unit :=
  (promiseCatch (importFn ()) consoleErrorHandler).map fun _ => ()

/-- The `LazyComponents` object literal: component names mapped to the
exported lazy bindings, in source order. -/
def LazyComponents : List (String × LazyComp) :=
  [("ProfileDashboard", LazyProfileDashboard),
   ("PersonalDetails", LazyPersonalDetails),
   ("Transaction", LazyTransaction),
   ("Filters", LazyFilters),
   ("CoinCard", LazyCoinCard),
   ("AssetTable", LazyAssetTable),
   ("SummaryHeader", LazySummaryHeader),
   ("TradeInterface", LazyTradeInterface),
   ("SmallLoanCard", LazySmallLoanCard),
   ("BigLoanCard", LazyBigLoanCard),
   ("LoanRequestForm", LazyLoanRequestForm),
   ("LoanEligibilityMeter", LazyLoanEligibilityMeter),
   ("WalletConnectionModal", LazyWalletConnectionModal),
   ("FaucetModule", LazyFaucetModule),
   ("BuiltOnAptos", LazyBuiltOnAptos)]

/-- A component whose render throws (or whose deferred import rejects,
which the framework rethrows at render). -/
def errComp : Unit → Outcome := fun _ => Outcome.error

/-- A component whose deferred import has not resolved yet. -/
def pendingComp : Unit → Outcome := fun _ => Outcome.pending

/-- A sample resolved component over `Nat` props. -/
def natComp : Nat → Outcome := fun n => Outcome.done (VNode.text (toString n))

/-- The markup `DefaultLoadingFallback` renders for the default size. -/
def defaultMdVNode : VNode :=
  VNode.el "div" "flex items-center justify-center h-8 w-8 min-h-[200px]"
    [VNode.el "div" "animate-spin rounded-full h-8 w-8 border-b-2 border-white" []]

example : loadingFallbackOf {} = some defaultMdVNode := by rfl

example : evalRNode (withSuspense pendingComp {} ()) = Outcome.done defaultMdVNode := by rfl

example : evalRNode (withSuspense errComp {} ()) = Outcome.error := by rfl

example : evalRNode (withSuspense errComp { errorBoundary := some true } ()) =
    Outcome.done errorFallbackVNode := by rfl

/-- Unfolding `withSuspense`: the wrapper builds the `Suspense` element
with `loadingFallbackOf options` around the component applied to the
props, adding an `ErrorBoundary` exactly when the destructured
`errorBoundary` option is true. -/
theorem withSuspense_eq {P : Type} (C : P → Outcome) (options : SuspenseOptions)
    (props : P) :
    withSuspense C options props =
      (if options.errorBoundary.getD false then
        RNode.boundary (RNode.suspense (loadingFallbackOf options) (RNode.comp C props))
      else RNode.suspense (loadingFallbackOf options) (RNode.comp C props)) := rfl

/-- C1: for every component and options record, the wrapper returned by
`withSuspense` renders the component with the given props inside a
`Suspense` element whose fallback is `options.fallback` when provided
and otherwise `DefaultLoadingFallback` sized by `options.loadingSize`,
defaulting to md. -/
theorem withSuspense_renders_component_in_suspense {P : Type} (C : P → Outcome)
    (options : SuspenseOptions) (props : P) :
    suspenseChildOf (withSuspense C options props) = some (RNode.comp C props) ∧
    suspenseFallbackOf (withSuspense C options props) = some (loadingFallbackOf options) ∧
    (∀ f, options.fallback = some f → loadingFallbackOf options = some f) ∧
    (options.fallback = none →
      loadingFallbackOf options =
        DefaultLoadingFallback (some (options.loadingSize.getD Size.md))) := by
  rw [withSuspense_eq]
  refine ⟨?_, ?_, ?_, ?_⟩
  · cases options.errorBoundary.getD false <;> simp [suspenseChildOf]
  · cases options.errorBoundary.getD false <;> simp [suspenseFallbackOf]
  · intro f hf
    simp [loadingFallbackOf, hf]
  · intro hf
    simp [loadingFallbackOf, hf]

/-- Witness for C1 at a concrete component, empty options and props 3. -/
theorem withSuspense_renders_component_in_suspense_witness :
    suspenseChildOf (withSuspense natComp {} 3) = some (RNode.comp natComp 3) ∧
    loadingFallbackOf ({} : SuspenseOptions) = DefaultLoadingFallback (some Size.md) :=
  ⟨(withSuspense_renders_component_in_suspense natComp {} 3).1,
   (withSuspense_renders_component_in_suspense natComp {} 3).2.2.2 rfl⟩

/-- C2 counterexample: with the default options (`withSuspense(C)`,
`errorBoundary` defaulting to false), a component whose import or
render throws makes the wrapper propagate the error; the result is not
any rendered fallback UI. -/
theorem withSuspense_default_propagates_error_counterexample :
    evalRNode (withSuspense errComp {} ()) = Outcome.error := rfl

/-- C2 (amended): when `options.errorBoundary` is set to true, the
wrapper shows the loading placeholder while the deferred import
resolves and swaps to the error-boundary fallback if the import or the
render throws; with default options only the loading placeholder is
provided and errors propagate. -/
theorem withSuspense_errorBoundary_swaps_fallback {P : Type} (C : P → Outcome)
    (options : SuspenseOptions) (props : P) (v : VNode)
    (hb : options.errorBoundary = some true)
    (hf : loadingFallbackOf options = some v) :
    (C props = Outcome.pending →
      evalRNode (withSuspense C options props) = Outcome.done v) ∧
    (C props = Outcome.error →
      evalRNode (withSuspense C options props) = Outcome.done errorFallbackVNode) := by
  rw [withSuspense_eq]
  rw [hb]
  constructor
  · intro hp
    simp [evalRNode, hp, hf]
  · intro he
    simp [evalRNode, he]

/-- Witness for C2 (amended): a throwing component with the error
boundary enabled renders the boundary's fallback markup. -/
theorem withSuspense_errorBoundary_swaps_fallback_witness :
    evalRNode (withSuspense errComp { errorBoundary := some true } ()) =
      Outcome.done errorFallbackVNode :=
  (withSuspense_errorBoundary_swaps_fallback errComp { errorBoundary := some true } ()
    defaultMdVNode rfl rfl).2 rfl

/-- C3: every export wraps a deferred module import: `lazy` stores
the import thunk without invoking it, each exported binding carries the
thunk of its own module, and the fifteen module paths are pairwise
distinct, so a bundler can fetch each chunk separately. -/
theorem exports_wrap_deferred_imports :
    (∀ thunk : Unit → String, (lazy thunk).load = thunk) ∧
    LazyComponents.map (fun e => e.2.load ()) =
      ["./components/dashboard/ProfileDashboard",
       "./components/dashboard/PersonalDetails",
       "./components/dashboard/Transaction",
       "./components/marketplace/Filters",
       "./components/marketplace/CoinCard",
       "./components/marketplace/AssetTable",
       "./components/marketplace/SummaryHeader",
       "./components/marketplace/TradeInterface",
       "./components/card/SmallLoanCard",
       "./components/card/BigLoanCard",
       "./components/card/LoanRequestForm",
       "./components/card/LoanEligibilityMeter",
       "./components/wallet/WalletConnectionModal",
       "./components/landing/FaucetModule",
       "./components/landing/BuiltOnAptos"] ∧
    (LazyComponents.map (fun e => e.2.load ())).Nodup :=
  ⟨fun _ => rfl, rfl, by decide⟩

/-- C4: the `ErrorBoundary` intercepts rendering exceptions from its
children: `getDerivedStateFromError` yields `hasError = true`, any
state with `hasError = true` makes `render` return the fallback markup
instead of `props.children`, and a child tree that raises an error
evaluates under the boundary to the rendered fallback rather than
crashing the tree. -/
theorem errorBoundary_intercepts_errors {P : Type} (children : RNode P) :
    ErrorBoundary.getDerivedStateFromError = { hasError := true } ∧
    (∀ st : EBState, st.hasError = true →
      ErrorBoundary.render st children = RNode.pure errorFallbackVNode) ∧
    (evalRNode children = Outcome.error →
      evalRNode (RNode.boundary children) = Outcome.done errorFallbackVNode) := by
  refine ⟨rfl, ?_, ?_⟩
  · intro st hst
    simp [ErrorBoundary.render, hst]
  · intro he
    simp [evalRNode, he]

/-- Witness for C4: a boundary around a concrete throwing component
evaluates to the rendered fallback. -/
theorem errorBoundary_intercepts_errors_witness :
    evalRNode (RNode.boundary (RNode.comp errComp ())) =
      Outcome.done errorFallbackVNode :=
  (errorBoundary_intercepts_errors (RNode.comp errComp ())).2.2 rfl

/-- C5: the boundary is catch-and-retry: from any state with
`hasError = true` (where `render` shows the fallback), the Retry
button's onClick handler resets `hasError` to false, after which
`render` returns `props.children` again. -/
theorem errorBoundary_retry_restores_children {P : Type} (st : EBState)
    (children : RNode P) (h : st.hasError = true) :
    ErrorBoundary.render st children = RNode.pure errorFallbackVNode ∧
    (ErrorBoundary.retryOnClick st).hasError = false ∧
    ErrorBoundary.render (ErrorBoundary.retryOnClick st) children = children := by
  refine ⟨?_, rfl, rfl⟩
  simp [ErrorBoundary.render, h]

/-- Witness for C5 at the error state and a concrete child tree. -/
theorem errorBoundary_retry_restores_children_witness :
    ErrorBoundary.render (ErrorBoundary.retryOnClick { hasError := true })
        (RNode.comp natComp 0) = RNode.comp natComp 0 :=
  (errorBoundary_retry_restores_children { hasError := true } (RNode.comp natComp 0)
    rfl).2.2

/-- C6: `LazyComponents` maps exactly the fifteen component names, in
source order and with no other entries, each to the exported lazy
binding of the same name. -/
theorem lazyComponents_mapping_complete :
    LazyComponents.map Prod.fst =
      ["ProfileDashboard", "PersonalDetails", "Transaction", "Filters", "CoinCard",
       "AssetTable", "SummaryHeader", "TradeInterface", "SmallLoanCard", "BigLoanCard",
       "LoanRequestForm", "LoanEligibilityMeter", "WalletConnectionModal",
       "FaucetModule", "BuiltOnAptos"] ∧
    LazyComponents.length = 15 ∧
    LazyComponents.lookup "ProfileDashboard" = some LazyProfileDashboard ∧
    LazyComponents.lookup "PersonalDetails" = some LazyPersonalDetails ∧
    LazyComponents.lookup "Transaction" = some LazyTransaction ∧
    LazyComponents.lookup "Filters" = some LazyFilters ∧
    LazyComponents.lookup "CoinCard" = some LazyCoinCard ∧
    LazyComponents.lookup "AssetTable" = some LazyAssetTable ∧
    LazyComponents.lookup "SummaryHeader" = some LazySummaryHeader ∧
    LazyComponents.lookup "TradeInterface" = some LazyTradeInterface ∧
    LazyComponents.lookup "SmallLoanCard" = some LazySmallLoanCard ∧
    LazyComponents.lookup "BigLoanCard" = some LazyBigLoanCard ∧
    LazyComponents.lookup "LoanRequestForm" = some LazyLoanRequestForm ∧
    LazyComponents.lookup "LoanEligibilityMeter" = some LazyLoanEligibilityMeter ∧
    LazyComponents.lookup "WalletConnectionModal" = some LazyWalletConnectionModal ∧
    LazyComponents.lookup "FaucetModule" = some LazyFaucetModule ∧
    LazyComponents.lookup "BuiltOnAptos" = some LazyBuiltOnAptos :=
  ⟨rfl, rfl, rfl, rfl, rfl, rfl, rfl, rfl, rfl, rfl, rfl, rfl, rfl, rfl, rfl, rfl, rfl⟩

/-- C7: the wrapper returned by `withSuspense` always passes its
computed `loadingFallback` as the fallback attribute of the `Suspense`
element enclosing the wrapped component, and while the component is
still loading the evaluated UI is exactly that fallback placeholder. -/
theorem suspense_fallback_always_passed {P : Type} (C : P → Outcome)
    (options : SuspenseOptions) (props : P) :
    suspenseFallbackOf (withSuspense C options props) = some (loadingFallbackOf options) ∧
    (∀ v, C props = Outcome.pending → loadingFallbackOf options = some v →
      evalRNode (withSuspense C options props) = Outcome.done v) := by
  rw [withSuspense_eq]
  constructor
  · cases options.errorBoundary.getD false <;> simp [suspenseFallbackOf]
  · intro v hp hf
    cases options.errorBoundary.getD false <;> simp [evalRNode, hp, hf]

/-- Witness for C7: a still-loading component under empty options shows
the default md spinner markup. -/
theorem suspense_fallback_always_passed_witness :
    evalRNode (withSuspense pendingComp {} ()) = Outcome.done defaultMdVNode :=
  (suspense_fallback_always_passed pendingComp {} ()).2 defaultMdVNode rfl rfl

/-- C8: `DefaultLoadingFallback` is total: for every size argument
(including the omitted one, defaulting to md) the `sizeClasses` lookup
is defined, the looked-up string splits into at least two
space-separated tokens, and the function returns markup without
raising. -/
theorem defaultLoadingFallback_total (sizeArg : Option Size) :
    (sizeClasses.lookup ((sizeArg.getD Size.md).key)).isSome = true ∧
    2 ≤ (jsSplit ' ' ((sizeClasses.lookup ((sizeArg.getD Size.md).key)).getD "")).length ∧
    (DefaultLoadingFallback sizeArg).isSome = true := by
  cases sizeArg with
  | none => decide
  | some s => cases s <;> decide

/-- C9: `preloadComponent` never propagates a failure: for every import
thunk, including one whose promise rejects, the rejection is consumed
by the attached catch handler and the call completes normally. -/
theorem preloadComponent_never_throws (importFn : Unit → Except String String) :
    preloadComponent importFn = Except.ok () := by
  unfold preloadComponent promiseCatch
  cases importFn () <;> rfl

/-- C10: the wrapper forwards the props value to the wrapped component
unchanged, and when `errorBoundary` is omitted or false the returned
tree is exactly the `Suspense` element with no `ErrorBoundary` node. -/
theorem wrapper_forwards_props_without_boundary {P : Type} (C : P → Outcome)
    (options : SuspenseOptions) (props : P)
    (h : options.errorBoundary.getD false = false) :
    withSuspense C options props =
      RNode.suspense (loadingFallbackOf options) (RNode.comp C props) ∧
    containsErrorBoundary (withSuspense C options props) = false := by
  rw [withSuspense_eq, h]
  exact ⟨rfl, rfl⟩

/-- Witness for C10 at a concrete component, empty options and props 3. -/
theorem wrapper_forwards_props_without_boundary_witness :
    withSuspense natComp {} 3 =
      RNode.suspense (loadingFallbackOf {}) (RNode.comp natComp 3) ∧
    containsErrorBoundary (withSuspense natComp {} 3) = false :=
  wrapper_forwards_props_without_boundary natComp {} 3 rfl
